import Mathlib

/-!
Verification of the tool-orchestration-and-prompt-synthesis pipeline of the
mcp-ken repository (Next.js route `src/app/api/gitmcp/route.ts`, the Mastra
GitHub agent tools in `src/mastra/tools/github.ts`, and the Mastra wiring in
`src/mastra/index.ts` / `src/mastra/mcp.ts`).

The JavaScript source is shallowly embedded:
* JS strings are Lean `String`s (JS `.length` counts UTF-16 code units while
  Lean counts code points; all reasoning here is at the code-point level).
* A `fetch` call is modelled by a `FetchOutcome` value: either a network-level
  rejection or an HTTP response with a status and an already-parsed body.
  `response.json()` followed by a later `JSON.stringify` round-trip is modelled
  by carrying the serialized JSON text itself as the body.
* A JS function that can throw is modelled with `Except JsError`; a caught
  exception is an `Except.error` consumed by the embedding of the
  corresponding `catch` block.
* JS regex operations used by the source (`[^\w\s]`, `\s+`, `indexOf`,
  `substring`, `includes`, `trim`, the four `match` patterns of
  `simulateLLMCall`, and `atob`) are implemented character-by-character below,
  at ASCII fidelity for the whitespace/lower-casing classes.
-/

set_option linter.unusedVariables false
set_option maxRecDepth 100000

/-! ## JS string primitives -/

/-- ASCII whitespace, the fragment of the JS `\s` class exercised here. -/
def isSpaceChar (c : Char) : Bool :=
  c = ' ' || c = '\t' || c = '\n' || c = '\x0d' || c = '\x0b' || c = '\x0c'

/-- The JS `\w` class: `[A-Za-z0-9_]`. -/
def isWordChar (c : Char) : Bool :=
  ('a' ≤ c && c ≤ 'z') || ('A' ≤ c && c ≤ 'Z') || ('0' ≤ c && c ≤ '9') || c = '_'

/-- ASCII lower-casing of one character (JS `toLowerCase` on ASCII input). -/
def jsLowerChar (c : Char) : Char :=
  if 'A' ≤ c && c ≤ 'Z' then Char.ofNat (c.toNat + 32) else c

/-- JS `String.prototype.toLowerCase` (ASCII fragment). -/
def jsToLower (s : String) : String :=
  String.mk (s.data.map jsLowerChar)

/-- Does `needle` occur at the very start of `hay`? -/
def startsWithList : List Char → List Char → Bool
  | [], _ => true
  | _ :: _, [] => false
  | c :: cs, d :: ds => (c = d) && startsWithList cs ds

/-- First index (if any) at which `needle` occurs in `hay`. -/
def findFrom (needle : List Char) : List Char → Option Nat
  | [] => if needle.isEmpty then some 0 else none
  | c :: rest =>
    if startsWithList needle (c :: rest) then some 0
    else (findFrom needle rest).map (· + 1)

/-- JS `hay.indexOf(sub)`: first index or `-1`. -/
def jsIndexOf (s sub : String) : Int :=
  match findFrom sub.data s.data with
  | some i => (i : Int)
  | none => -1

/-- JS `hay.indexOf(sub, start)`: a negative `start` is clamped to `0`. -/
def jsIndexOfFrom (s sub : String) (start : Int) : Int :=
  let st := start.toNat
  match findFrom sub.data (s.data.drop st) with
  | some i => ((i + st : Nat) : Int)
  | none => -1

/-- JS `hay.includes(sub)`. -/
def jsIncludes (s sub : String) : Bool :=
  (findFrom sub.data s.data).isSome

/-- JS `s.substring(a, b)`: both indices are clamped into `[0, length]` and
swapped when out of order. -/
def jsSubstring (s : String) (a b : Int) : String :=
  let n : Int := (s.data.length : Int)
  let a' : Nat := (max 0 (min a n)).toNat
  let b' : Nat := (max 0 (min b n)).toNat
  let lo := min a' b'
  let hi := max a' b'
  String.mk ((s.data.drop lo).take (hi - lo))

/-- JS `s.substring(a)` (one-argument form). -/
def jsSubstringFrom (s : String) (a : Int) : String :=
  jsSubstring s a (s.data.length : Int)

/-- JS `s.trim()` (ASCII whitespace fragment). -/
def jsTrim (s : String) : String :=
  String.mk (((s.data.dropWhile isSpaceChar).reverse.dropWhile isSpaceChar).reverse)

/-- Splitter for JS `s.split(/\s+/)`: `acc` is the current token (reversed),
`inSep` records whether we are inside a separator run.  Matches the JS
behaviour of producing a leading empty token for leading whitespace and a
trailing empty token for trailing whitespace. -/
def splitWsGo : List Char → List Char → Bool → List (List Char)
  | [], acc, inSep => if inSep then [[]] else [acc.reverse]
  | c :: rest, acc, inSep =>
    if isSpaceChar c then
      if inSep then splitWsGo rest [] true
      else acc.reverse :: splitWsGo rest [] true
    else splitWsGo rest (c :: acc) false

/-- JS `s.split(/\s+/)`. -/
def jsSplitWs (s : String) : List String :=
  (splitWsGo s.data [] false).map (fun l => String.mk l)

/-- JS `s.replace(/[^\w\s]/g, "")`: drop every character that is neither a
word character nor whitespace. -/
def stripNonWord (s : String) : String :=
  String.mk (s.data.filter (fun c => isWordChar c || isSpaceChar c))

/-- JS `Array.prototype.join("+")`. -/
def joinPlus : List String → String
  | [] => ""
  | [t] => t
  | t :: rest => t ++ "+" ++ joinPlus rest

/-- Concatenation of a list of strings (the `forEach`/`+=` accumulation
pattern of `formatToolResultsForLLM`). -/
def concatAll : List String → String
  | [] => ""
  | s :: rest => s ++ concatAll rest

/-! ## Fetch model -/

/-- Outcome of one JS `fetch` call: either the promise rejects (network
failure) or it resolves to an HTTP response with a status code and a parsed
JSON body of shape `β`. -/
inductive FetchOutcome (β : Type) where
  | reject : FetchOutcome β
  | response (status : Nat) (body : β) : FetchOutcome β
deriving DecidableEq

/-- `Response.ok`: status in the 2xx range. -/
def respOk (status : Nat) : Bool :=
  200 ≤ status && status < 300

/-- A thrown JS error: either an `Error` with a message or the rejection
value of a failed `fetch`. -/
inductive JsError where
  | message (msg : String)
  | network
deriving DecidableEq

/-- Is an `Except` value a success? -/
def isOkE {ε α : Type} : Except ε α → Bool
  | .ok _ => true
  | .error _ => false

/-! ## Search-term derivation (inline in `searchRepositoryContents`,
`route.ts` lines 430-440) -/

/-- `query.toLowerCase().replace(/[^\w\s]/g, "").split(/\s+/)
    .filter((term) => term.length > 3).slice(0, 3)` -/
def deriveSearchTerms (query : String) : List String :=
  ((jsSplitWs (stripNonWord (jsToLower query))).filter
    (fun term => term.length > 3)).take 3

/-- `searchTerms.length > 0 ? searchTerms.join("+") : "api+endpoint+feature"` -/
def deriveSearchQuery (query : String) : String :=
  let searchTerms := deriveSearchTerms query
  if searchTerms.length > 0 then joinPlus searchTerms else "api+endpoint+feature"

/-! ## The four fallback-pipeline fetchers (`route.ts` lines 385-484) -/

/-- `fetchRepositoryMetadata` (route.ts 386-399).  The body is the repository
metadata JSON (carried in serialized form).  On a non-ok response it throws
`GitHub API error: <status>`; the `catch` block logs and **re-throws**, so the
failure escapes the fetcher. -/
def fetchRepositoryMetadata (o : FetchOutcome String) : Except JsError String :=
  match o with
  | .reject => .error .network
  | .response status body =>
    if !(respOk status) then .error (.message ("GitHub API error: " ++ toString status))
    else .ok body

/-- Parsed body of `GET /repos/{repo}/readme`: the base64 `content` field
(with embedded newlines), when present. -/
structure ReadmeBody where
  content : Option String
deriving DecidableEq

/-- One base64 digit value. -/
def b64Digit (c : Char) : Option Nat :=
  if 'A' ≤ c && c ≤ 'Z' then some (c.toNat - 'A'.toNat)
  else if 'a' ≤ c && c ≤ 'z' then some (c.toNat - 'a'.toNat + 26)
  else if '0' ≤ c && c ≤ '9' then some (c.toNat - '0'.toNat + 52)
  else if c = '+' then some 62
  else if c = '/' then some 63
  else none

/-- Regroup 6-bit values into bytes (a remainder of one 6-bit value is
rejected before this function is called). -/
def b64Bytes : List Nat → List Nat
  | a :: b :: c :: d :: rest =>
    (a * 4 + b / 16) :: ((b % 16) * 16 + c / 4) :: ((c % 4) * 64 + d) :: b64Bytes rest
  | [a, b] => [a * 4 + b / 16]
  | [a, b, c] => [a * 4 + b / 16, (b % 16) * 16 + c / 4]
  | _ => []

/-- Strip up to two trailing `=` padding characters. -/
def stripPadding (cs : List Char) : List Char :=
  let cs1 := if cs.getLast? = some '=' then cs.dropLast else cs
  if cs1.getLast? = some '=' then cs1.dropLast else cs1

/-- JS `atob` (WHATWG forgiving-base64): strip ASCII whitespace, strip up to
two trailing `=` when the length is a multiple of four, reject a remainder of
one digit or any invalid character, then decode 6-bit groups into bytes.
`none` models the thrown `InvalidCharacterError`. -/
def atobDecode (s : String) : Option String :=
  let cs := s.data.filter (fun c => !(isSpaceChar c))
  let cs := if cs.length % 4 = 0 then stripPadding cs else cs
  if cs.length % 4 = 1 then none
  else if cs.any (fun c => (b64Digit c).isNone) then none
  else some (String.mk ((b64Bytes (cs.map (fun c => (b64Digit c).getD 0))).map
    (fun n => Char.ofNat n)))

/-- `fetchRepositoryReadme` (route.ts 402-422).  `if (data.content)` is JS
truthiness: both an absent and an empty `content` take the
`"README content not available"` branch.  The `catch` block converts any
failure into the `"Could not fetch README content due to an error"` sentinel,
so this fetcher never raises. -/
def fetchRepositoryReadme (o : FetchOutcome ReadmeBody) : Except JsError String :=
  let inner : Except JsError String :=
    match o with
    | .reject => .error .network
    | .response status body =>
      if !(respOk status) then .error (.message ("GitHub API error: " ++ toString status))
      else
        match body.content with
        | some c =>
          if !(c = "") then
            match atobDecode (String.mk (c.data.filter (fun ch => !(ch = '\n')))) with
            | some decoded => .ok decoded
            | none => .error (.message "InvalidCharacterError")
          else .ok "README content not available"
        | none => .ok "README content not available"
  match inner with
  | .ok s => .ok s
  | .error _ => .ok "Could not fetch README content due to an error"

/-- Parsed body of `GET /search/code`: the `items` field (in serialized form),
when present (`data.items || []`). -/
structure SearchBody where
  items : Option String
deriving DecidableEq

/-- `searchRepositoryContents` (route.ts 425-466).  `oSearch` is the code
search call, `oContents` the `GET /repos/{repo}/contents` fallback issued only
when the search response is non-ok.  The `catch` block returns `[]`, so this
fetcher never raises.  The derived search string (see `deriveSearchQuery`)
only shapes the request URL, which is abstracted into `oSearch`. -/
def searchRepositoryContents (query : String) (oSearch : FetchOutcome SearchBody)
    (oContents : FetchOutcome String) : Except JsError String :=
  let searchQuery := deriveSearchQuery query
  let inner : Except JsError String :=
    match oSearch with
    | .reject => .error .network
    | .response status body =>
      if !(respOk status) then
        match oContents with
        | .reject => .error .network
        | .response st2 b2 =>
          if !(respOk st2) then .ok "[]" else .ok b2
      else .ok (body.items.getD "[]")
  match inner with
  | .ok s => .ok s
  | .error _ => .ok "[]"

/-- `fetchRepositoryStructure` (route.ts 469-484).  The `catch` block returns
`[]`, so this fetcher never raises. -/
def fetchRepositoryStructure (o : FetchOutcome String) : Except JsError String :=
  let inner : Except JsError String :=
    match o with
    | .reject => .error .network
    | .response status body =>
      if !(respOk status) then .error (.message ("GitHub API error: " ++ toString status))
      else .ok body
  match inner with
  | .ok s => .ok s
  | .error _ => .ok "[]"

/-! ## Agent-tool variants (`src/mastra/tools/github.ts`) -/

/-- Result value of the agent tool `fetchRepositoryMetadata.execute`:
either the metadata JSON or an `{ error: ... }` object. -/
inductive MetadataToolOut where
  | success (body : String)
  | errorOut (error : String)
deriving DecidableEq

/-- Agent tool `fetchRepositoryMetadata.execute` (github.ts 159-177): its
`catch` block returns `{ error: "Failed to fetch repository metadata" }`, so
it never raises. -/
def fetchRepositoryMetadataExecute (o : FetchOutcome String) : MetadataToolOut :=
  match o with
  | .reject => .errorOut "Failed to fetch repository metadata"
  | .response status body =>
    if !(respOk status) then .errorOut "Failed to fetch repository metadata"
    else .success body

/-- Result value of the agent tool `searchRepositoryContents.execute`:
an `items` array (serialized) with optional `note` and `error` fields. -/
structure SearchToolOut where
  items : String
  note : Option String
  error : Option String
deriving DecidableEq

/-- Agent tool `searchRepositoryContents.execute` (github.ts 236-281): on a
non-ok search response it falls back to the contents listing and attaches an
explanatory `note`; its `catch` returns `{ items: [], error: ... }`. -/
def searchRepositoryContentsExecute (query : String) (oSearch : FetchOutcome SearchBody)
    (oContents : FetchOutcome String) : SearchToolOut :=
  let inner : Except JsError SearchToolOut :=
    match oSearch with
    | .reject => .error .network
    | .response status body =>
      if !(respOk status) then
        match oContents with
        | .reject => .error .network
        | .response st2 b2 =>
          if !(respOk st2) then .ok ⟨"[]", none, none⟩
          else .ok ⟨b2, some "Fallback to repository contents due to search API limitations", none⟩
      else .ok ⟨body.items.getD "[]", none, none⟩
  match inner with
  | .ok v => v
  | .error _ => ⟨"[]", none, some "Failed to search repository contents"⟩

/-! ## Tool orchestrator (`executeGitHubTools`, route.ts 148-188) -/

/-- A named tool result, `{ name, content }`. -/
structure ToolResult where
  name : String
  content : String
deriving DecidableEq

/-- The fetch outcomes a single fallback-pipeline run observes, one per HTTP
request the pipeline can issue (`searchContents` is the contents listing
requested inside the search fallback; `repoContents` the one requested by
`fetchRepositoryStructure`). -/
structure GhEnv where
  metadata : FetchOutcome String
  readme : FetchOutcome ReadmeBody
  search : FetchOutcome SearchBody
  searchContents : FetchOutcome String
  repoContents : FetchOutcome String
deriving DecidableEq

/-- `executeGitHubTools` (route.ts 148-188): runs the four fetchers
sequentially in the fixed order metadata, readme, search, structure and
collects the results under the four fixed names.  `JSON.stringify` of a
parsed body is modelled as the serialized body itself.  Its `catch` re-throws,
so a raising fetcher (metadata) aborts the whole run. -/
def executeGitHubTools (repo query : String) (env : GhEnv) :
    Except JsError (List ToolResult) :=
  match fetchRepositoryMetadata env.metadata with
  | .error e => .error e
  | .ok repoMetadata =>
    match fetchRepositoryReadme env.readme with
    | .error e => .error e
    | .ok readmeContent =>
      match searchRepositoryContents query env.search env.searchContents with
      | .error e => .error e
      | .ok searchResults =>
        match fetchRepositoryStructure env.repoContents with
        | .error e => .error e
        | .ok repoStructure =>
          .ok [⟨"fetch_repository_metadata", repoMetadata⟩,
               ⟨"fetch_repository_readme", readmeContent⟩,
               ⟨"search_repository_contents", searchResults⟩,
               ⟨"fetch_repository_structure", repoStructure⟩]

/-! ## Prompt synthesizer (`formatToolResultsForLLM`, route.ts 248-279) -/

/-- The fixed prompt introduction embedding the user query
(route.ts 253-258). -/
def promptIntro (query : String) : String :=
  "You are an AI assistant that answers questions about GitHub repositories. \nUser\x27s question: \"" ++ query ++
  "\"\n\nI\x27ve gathered the following information about the GitHub repository:\n\n"

/-- The fixed closing instruction block (route.ts 273-276). -/
def promptOutro : String :=
  "Based on the above information, please answer the user\x27s question accurately. \nFocus only on the information provided and what can be directly inferred from it.\nIf you don\x27t have enough information, acknowledge that limitation.\nFormat your response in a clear, helpful way."

/-- The per-result truncation (route.ts 265-268):
`content.length > 2000 ? content.substring(0, 2000) + "... (truncated)" : content`. -/
def truncateForPrompt (content : String) : String :=
  if content.length > 2000 then jsSubstring content 0 2000 ++ "... (truncated)"
  else content

/-- One iteration of the `forEach` loop (route.ts 261-271). -/
def toolResultBlock (r : ToolResult) : String :=
  "--- " ++ r.name ++ " ---\n" ++ truncateForPrompt r.content ++ "\n\n"

/-- `formatToolResultsForLLM` (route.ts 248-279). -/
def formatToolResultsForLLM (query : String) (toolResults : List ToolResult) : String :=
  promptIntro query ++ concatAll (toolResults.map toolResultBlock) ++ promptOutro

/-! ## Simulated LLM (`simulateLLMCall`, route.ts 285-383)

The JS regex `match` patterns are embedded as a left-to-right scan that, at
each occurrence of the pattern's literal head, tries to complete the match and
otherwise keeps scanning, which is the regex's leftmost-match behaviour for
these patterns. -/

/-- Complete `"([^"]+)"`: an opening quote, a non-empty run of non-quote
characters, and a closing quote. -/
def parseQuotedCapture (l : List Char) : Option String :=
  match l with
  | '"' :: rest =>
    let run := rest.takeWhile (fun c => !(c = '"'))
    let after := rest.dropWhile (fun c => !(c = '"'))
    if run.length > 0 && !after.isEmpty then some (String.mk run) else none
  | _ => none

/-- Complete `(\d+)`: a non-empty run of digits. -/
def parseDigitsCapture (l : List Char) : Option String :=
  let run := l.takeWhile (fun c => c.isDigit)
  if run.length > 0 then some (String.mk run) else none

/-- Leftmost match of `<lit>` followed by a completion parsed by `parse`,
returning the capture. -/
def matchFirst (lit : List Char) (parse : List Char → Option String) :
    List Char → Option String
  | [] => none
  | c :: rest =>
    match (if startsWithList lit (c :: rest) then parse ((c :: rest).drop lit.length)
           else none) with
    | some cap => some cap
    | none => matchFirst lit parse rest

/-- Leftmost match of `<lit>\s*"([^"]+)"` in `s`. -/
def matchQuotedField (s lit : String) : Option String :=
  matchFirst lit.data (fun l => parseQuotedCapture (l.dropWhile isSpaceChar)) s.data

/-- Leftmost match of `<lit>\s*(\d+)` in `s`. -/
def matchDigitsField (s lit : String) : Option String :=
  matchFirst lit.data (fun l => parseDigitsCapture (l.dropWhile isSpaceChar)) s.data

/-- `prompt.match(/"full_name":\s*"([^"]+)"/)` with its default
(route.ts 291-292). -/
def promptRepoName (prompt : String) : String :=
  (matchQuotedField prompt "\"full_name\":").getD "eddycjy/go-gin-example"

/-- `prompt.match(/"stargazers_count":\s*(\d+)/)` with its default
(route.ts 294-295). -/
def promptStars (prompt : String) : String :=
  (matchDigitsField prompt "\"stargazers_count\":").getD "many"

/-- `prompt.match(/"description":\s*"([^"]+)"/)` with its default
(route.ts 297-300). -/
def promptDescription (prompt : String) : String :=
  (matchQuotedField prompt "\"description\":").getD "a Go Gin example with useful features"

/-- `prompt.match(/User's question: "([^"]+)"/)?.[1]?.toLowerCase() || ""`
(route.ts 302-303). -/
def promptQuery (prompt : String) : String :=
  ((matchFirst ("User\x27s question: ").data parseQuotedCapture prompt.data).map
    jsToLower).getD ""

/-- README-section location (route.ts 306-316): slice from just past the
`fetch_repository_readme` marker to the next `---`, trimmed. -/
def promptReadmeSection (prompt : String) : String :=
  if jsIncludes prompt "fetch_repository_readme" then
    let readmeStart : Int :=
      jsIndexOf prompt "fetch_repository_readme" +
        (String.length "fetch_repository_readme" : Int) + 4
    let readmeEnd : Int := jsIndexOfFrom prompt "---" readmeStart
    if readmeEnd > readmeStart then jsTrim (jsSubstring prompt readmeStart readmeEnd)
    else ""
  else ""

/-- The `run`/`install`/`setup` branch (route.ts 326-346): the
`## Installation` slice, then the `## How to run` slice appended after a blank
line when present. -/
def installRunExtract (readmeSection : String) : String :=
  let relevantContent :=
    let installationStart := jsIndexOf readmeSection "## Installation"
    if installationStart > -1 then
      let nextSectionStart := jsIndexOfFrom readmeSection "##" (installationStart + 3)
      if nextSectionStart > -1 then jsSubstring readmeSection installationStart nextSectionStart
      else jsSubstringFrom readmeSection installationStart
    else ""
  let runStart := jsIndexOf readmeSection "## How to run"
  if runStart > -1 then
    let nextSectionStart := jsIndexOfFrom readmeSection "##" (runStart + 3)
    let runSection :=
      if nextSectionStart > -1 then jsSubstring readmeSection runStart nextSectionStart
      else jsSubstringFrom readmeSection runStart
    relevantContent ++ "\n\n" ++ runSection
  else relevantContent

/-- The `feature`/`what`/`capabilities` branch (route.ts 352-359). -/
def featuresExtract (readmeSection : String) : String :=
  let featuresStart := jsIndexOf readmeSection "## Features"
  if featuresStart > -1 then
    let nextSectionStart := jsIndexOfFrom readmeSection "##" (featuresStart + 3)
    if nextSectionStart > -1 then jsSubstring readmeSection featuresStart nextSectionStart
    else jsSubstringFrom readmeSection featuresStart
  else ""

/-- The `api`/`endpoint` branch (route.ts 362-369): note the next-`##` search
starts at `apiStart` itself and the no-header fallback is a 500-character
window. -/
def apiExtract (readmeSection : String) : String :=
  let apiStart := jsIndexOf readmeSection "API"
  if apiStart > -1 then
    let nextSectionStart := jsIndexOfFrom readmeSection "##" apiStart
    if nextSectionStart > -1 then jsSubstring readmeSection apiStart nextSectionStart
    else jsSubstring readmeSection apiStart (apiStart + 500)
  else ""

/-- The keyword dispatch over the lower-cased question (route.ts 318-370):
an `if / else if / else if` chain, so exactly one branch runs. -/
def extractRelevantContent (query readmeSection : String) : String :=
  if jsIncludes query "run" || jsIncludes query "install" || jsIncludes query "setup" then
    installRunExtract readmeSection
  else if jsIncludes query "feature" || jsIncludes query "what" ||
      jsIncludes query "capabilities" then
    featuresExtract readmeSection
  else if jsIncludes query "api" || jsIncludes query "endpoint" then
    apiExtract readmeSection
  else ""

/-- The templated answer used when a relevant section was found
(route.ts 377). -/
def responseWithContent (repoName relevantContent stars description : String) : String :=
  "Based on the GitHub repository " ++ repoName ++ ", I found this information:\n\n" ++
  relevantContent ++ "\n\nThis repository has " ++ stars ++
  " stars and is described as: \"" ++ description ++ "\"."

/-- The generic answer used otherwise (route.ts 379). -/
def responseGeneric (repoName stars description : String) : String :=
  "The repository " ++ repoName ++ " is a " ++ description ++ ". It has " ++ stars ++
  " stars on GitHub.\n\nFrom analyzing the repository\x27s structure and README, it appears to be a framework for building web applications using the Gin framework in Go. It demonstrates patterns for REST APIs, authentication, and database operations.\n\nFor more specific information, please ask about particular aspects like installation, features, or API endpoints."

/-- `simulateLLMCall` (route.ts 285-383), minus the artificial 1-second
delay.  `if (relevantContent)` is JS truthiness on a string: non-empty. -/
def simulateLLMCall (prompt : String) : String :=
  let repoName := promptRepoName prompt
  let stars := promptStars prompt
  let description := promptDescription prompt
  let query := promptQuery prompt
  let readmeSection := promptReadmeSection prompt
  let relevantContent := extractRelevantContent query readmeSection
  if !(relevantContent = "") then
    responseWithContent repoName relevantContent stars description
  else responseGeneric repoName stars description

/-! ## Request handler and cached Mastra components
(`route.ts` 8-112, `src/mastra/index.ts`, `src/mastra/mcp.ts`) -/

/-- A JSON value of the request body, as far as the handler inspects it. -/
inductive JsValue where
  | str (s : String)
  | num (n : Int)
  | boolean (b : Bool)
  | null
  | undefined
deriving DecidableEq

/-- JS truthiness on the modelled values. -/
def jsTruthy : JsValue → Bool
  | .str s => !(s = "")
  | .num n => !(n = 0)
  | .boolean b => b
  | .null => false
  | .undefined => false

/-- `typeof v === "string"`. -/
def jsIsString : JsValue → Bool
  | .str _ => true
  | _ => false

/-- A `NextResponse.json` value: status plus the `error` / `response` fields
of the body. -/
structure JsonResponse where
  status : Nat
  errorMsg : Option String
  responseMsg : Option String
deriving DecidableEq

/-- The validation prefix of `POST` (route.ts 39-48): on
`!query || typeof query !== "string"` respond 400 immediately; everything the
handler would do after validation (agent flow, fallback pipeline) is
abstracted as `rest`, and the returned flag records whether it was reached. -/
def POST (query : JsValue) (rest : JsonResponse) : JsonResponse × Bool :=
  if !(jsTruthy query) || !(jsIsString query) then
    (⟨400, some "Invalid query parameter", none⟩, false)
  else (rest, true)

/-- The runtime context stored in the cached Mastra components: the values
under `repository-owner` and `repository-name`. -/
structure RuntimeCtx where
  owner : JsValue
  name : JsValue
deriving DecidableEq

/-- `createDefaultRuntimeContext` (mcp.ts 21-27). -/
def createDefaultRuntimeContext : RuntimeCtx :=
  ⟨.str "eddycjy", .str "go-gin-example"⟩

/-- The cached `{ githubAgent, runtimeContext }` pair; the agent handle is
opaque to every claim, so only the runtime context is carried. -/
structure MastraComponents where
  runtimeContext : RuntimeCtx
deriving DecidableEq

/-- `initializeMastra` (index.ts 6-28): on success it returns components with
a fresh default runtime context; on failure it re-throws.  Whether the
underlying agent construction succeeds is an external condition, passed as
`succeeds`. -/
def initializeMastra (succeeds : Bool) : Except String MastraComponents :=
  if succeeds then .ok ⟨createDefaultRuntimeContext⟩
  else .error "Error initializing Mastra"

/-- One call to `getMastraComponents` (route.ts 15-29) as a transition on the
module-level `mastraPromise` cache: result is (new cache state, returned or
thrown value, whether `initializeMastra` was invoked).  A failed construction
resets the cache to `none` (route.ts 24) so the next call retries. -/
def getMastraComponents (cache : Option MastraComponents) (initSucceeds : Bool) :
    Option MastraComponents × Except String MastraComponents × Bool :=
  match cache with
  | some comps => (some comps, .ok comps, false)
  | none =>
    match initializeMastra initSucceeds with
    | .ok comps => (some comps, .ok comps, true)
    | .error e => (none, .error e, true)

/-- The context-handling prefix of the `POST` agent path (route.ts 52-66):
get the cached components, overwrite `repository-owner` / `repository-name`
when the request supplies truthy `owner` and `repo`, and use the resulting
context as the request's effective repository identifier.  Because
`runtimeContext.set` mutates the object held by the cache, the new context is
also the context cached for later requests. -/
def postContextStep (cache : Option MastraComponents) (initSucceeds : Bool)
    (owner repo : JsValue) : Option MastraComponents × Except String RuntimeCtx :=
  match getMastraComponents cache initSucceeds with
  | (cache', .error e, _) => (cache', .error e)
  | (_, .ok comps, _) =>
    let ctx :=
      if jsTruthy owner && jsTruthy repo then RuntimeCtx.mk owner repo
      else comps.runtimeContext
    (some ⟨ctx⟩, .ok ctx)

/-- `contentsFallbackResult` names what the search fallback hands back for a
given contents-listing outcome: the listing body on success, `[]` otherwise. -/
def contentsFallbackResult : FetchOutcome String → String
  | .response st2 b2 => if respOk st2 then b2 else "[]"
  | .reject => "[]"

/-! ## Theorems -/

/-- C6: `searchRepositoryContents` derives its search string by lower-casing,
stripping punctuation, splitting on whitespace, keeping tokens longer than 3
characters, taking at most the first 3, joining with `+`, with default
`"api+endpoint+feature"` when no token qualifies; for
`"how do stars work"` the derived string is `"stars+work"`. -/
theorem deriveSearchQuery_correct :
    deriveSearchQuery "how do stars work" = "stars+work"
    ∧ (∀ q : String, (deriveSearchTerms q).length ≤ 3)
    ∧ (∀ (q : String) (t : String), t ∈ deriveSearchTerms q → t.length > 3)
    ∧ (∀ q : String, deriveSearchTerms q = [] →
        deriveSearchQuery q = "api+endpoint+feature") := by
  refine ⟨by decide, ?_, ?_, ?_⟩
  · intro q
    exact List.length_take_le 3 _
  · intro q t ht
    have ht' := List.mem_of_mem_take ht
    have := List.of_mem_filter ht'
    simpa using this
  · intro q h
    simp [deriveSearchQuery, h]

/-- C6 witness: the main derivation example plus the no-qualifying-token
default, at concrete inputs. -/
theorem deriveSearchQuery_correct_witness :
    deriveSearchQuery "how do stars work" = "stars+work"
    ∧ deriveSearchTerms "hi yo" = []
    ∧ deriveSearchQuery "hi yo" = "api+endpoint+feature" :=
  ⟨deriveSearchQuery_correct.1, by decide,
    deriveSearchQuery_correct.2.2.2 "hi yo" (by decide)⟩

/-- C7: for any lower-cased question containing `"install"` and the README
section `"## Installation\nRun npm install\n## Usage\n..."`, the extracted
relevant content is exactly `"## Installation\nRun npm install\n"` — the
slice from the `## Installation` marker up to, not including, the next `##`
header. -/
theorem install_section_extraction :
    ∀ query : String, jsIncludes query "install" = true →
      extractRelevantContent query "## Installation\nRun npm install\n## Usage\n..." =
        "## Installation\nRun npm install\n" := by
  intro query h
  simp only [extractRelevantContent, h, Bool.or_true, Bool.true_or, if_true]
  decide

/-- C7 witness: the extraction at the concrete question `"install"`. -/
theorem install_section_extraction_witness :
    jsIncludes "install" "install" = true
    ∧ extractRelevantContent "install" "## Installation\nRun npm install\n## Usage\n..." =
        "## Installation\nRun npm install\n" :=
  ⟨by decide, install_section_extraction "install" (by decide)⟩

/-- C10: the keyword branches of `simulateLLMCall` are an
`if / else if / else if` chain checked in the fixed priority order
run-install-setup, then feature-what-capabilities, then api-endpoint, so
exactly one branch runs; in particular any question containing `"run"` takes
the installation branch, never the features branch. -/
theorem branch_priority :
    ∀ query readmeSection : String,
      ((jsIncludes query "run" || jsIncludes query "install" ||
          jsIncludes query "setup") = true →
        extractRelevantContent query readmeSection = installRunExtract readmeSection)
      ∧ ((jsIncludes query "run" || jsIncludes query "install" ||
            jsIncludes query "setup") = false →
          (jsIncludes query "feature" || jsIncludes query "what" ||
            jsIncludes query "capabilities") = true →
          extractRelevantContent query readmeSection = featuresExtract readmeSection)
      ∧ ((jsIncludes query "run" || jsIncludes query "install" ||
            jsIncludes query "setup") = false →
          (jsIncludes query "feature" || jsIncludes query "what" ||
            jsIncludes query "capabilities") = false →
          (jsIncludes query "api" || jsIncludes query "endpoint") = true →
          extractRelevantContent query readmeSection = apiExtract readmeSection)
      ∧ ((jsIncludes query "run" || jsIncludes query "install" ||
            jsIncludes query "setup") = false →
          (jsIncludes query "feature" || jsIncludes query "what" ||
            jsIncludes query "capabilities") = false →
          (jsIncludes query "api" || jsIncludes query "endpoint") = false →
          extractRelevantContent query readmeSection = "")
      ∧ (jsIncludes query "run" = true →
          extractRelevantContent query readmeSection = installRunExtract readmeSection) := by
  intro query readmeSection
  refine ⟨?_, ?_, ?_, ?_, ?_⟩
  · intro h1
    simp [extractRelevantContent, h1]
  · intro h1 h2
    simp [extractRelevantContent, h1, h2]
  · intro h1 h2 h3
    simp [extractRelevantContent, h1, h2, h3]
  · intro h1 h2 h3
    simp [extractRelevantContent, h1, h2, h3]
  · intro h
    simp [extractRelevantContent, h]

/-- C10 witness: a question containing both `"run"` and `"feature"` takes
the installation branch on a README where the two branches produce different
sections. -/
theorem branch_priority_witness :
    jsIncludes "run feature" "run" = true
    ∧ jsIncludes "run feature" "feature" = true
    ∧ extractRelevantContent "run feature" "## Installation\nA\n## Features\nB\n" =
        installRunExtract "## Installation\nA\n## Features\nB\n"
    ∧ installRunExtract "## Installation\nA\n## Features\nB\n" ≠
        featuresExtract "## Installation\nA\n## Features\nB\n" :=
  ⟨by decide, by decide,
    (branch_priority "run feature" "## Installation\nA\n## Features\nB\n").2.2.2.2
      (by decide),
    by decide⟩

/-- C9: a request whose `query` is missing (`undefined`), empty, or not a
string is answered immediately with status 400 and body
`{ error: "Invalid query parameter" }`, without reaching the agent flow or
the fallback pipeline. -/
theorem post_validation_400 :
    ∀ (query : JsValue) (rest : JsonResponse),
      (query = .undefined ∨ query = .str "" ∨ jsIsString query = false) →
        POST query rest = (⟨400, some "Invalid query parameter", none⟩, false) := by
  intro q rest h
  rcases h with h | h | h
  · subst h; rfl
  · subst h; rfl
  · cases q <;> simp_all [POST, jsTruthy, jsIsString]

/-- C9 witness: a missing `query` field at a concrete downstream response. -/
theorem post_validation_400_witness :
    POST .undefined ⟨200, none, some "ok"⟩ =
      (⟨400, some "Invalid query parameter", none⟩, false) :=
  post_validation_400 .undefined ⟨200, none, some "ok"⟩ (Or.inl rfl)

/-- C4 (amended): the `mastraPromise` cache is lazily initialized, reused
without reconstruction once populated, and reset to `null` when construction
fails so the next request retries; and a request that omits `owner`/`repo`
reads whatever repository identifier the shared cached runtime context
currently holds. -/
theorem cache_lifecycle :
    (∀ (comps : MastraComponents) (init : Bool),
      getMastraComponents (some comps) init = (some comps, .ok comps, false))
    ∧ getMastraComponents none true =
        (some ⟨createDefaultRuntimeContext⟩, .ok ⟨createDefaultRuntimeContext⟩, true)
    ∧ getMastraComponents none false = (none, .error "Error initializing Mastra", true)
    ∧ (∀ (ctx : RuntimeCtx) (init : Bool),
        postContextStep (some ⟨ctx⟩) init .undefined .undefined = (some ⟨ctx⟩, .ok ctx)) :=
  ⟨fun _ _ => rfl, rfl, rfl, fun _ _ => rfl⟩

/-- C4 counterexample: the effective repository identifier is not
request-local — a first request supplying `octo/demo` mutates the cached
runtime context, and a second request omitting `owner`/`repo` then sees
`octo/demo` instead of the default it would see in isolation. -/
theorem context_not_request_local :
    (postContextStep none true (.str "octo") (.str "demo")).1 =
      some ⟨⟨.str "octo", .str "demo"⟩⟩
    ∧ (postContextStep (some ⟨⟨.str "octo", .str "demo"⟩⟩) true .undefined .undefined).2 =
        .ok ⟨.str "octo", .str "demo"⟩
    ∧ (postContextStep none true .undefined .undefined).2 = .ok createDefaultRuntimeContext
    ∧ RuntimeCtx.mk (.str "octo") (.str "demo") ≠ createDefaultRuntimeContext :=
  ⟨rfl, rfl, rfl, by decide⟩

/-- C1 (amended): the readme, search and structure fetchers of the fallback
pipeline never raise — every failure is converted to a sentinel result — but
`fetchRepositoryMetadata` re-throws on non-2xx status or network failure;
the agent tool `fetchRepositoryMetadata.execute` is the variant that returns
an error-carrying object instead of raising. -/
theorem fetcher_failure_behavior :
    (∀ o : FetchOutcome ReadmeBody, isOkE (fetchRepositoryReadme o) = true)
    ∧ (∀ (q : String) (oS : FetchOutcome SearchBody) (oC : FetchOutcome String),
        isOkE (searchRepositoryContents q oS oC) = true)
    ∧ (∀ o : FetchOutcome String, isOkE (fetchRepositoryStructure o) = true)
    ∧ (∀ (st : Nat) (b : String), respOk st = false →
        fetchRepositoryMetadata (.response st b) =
          .error (.message ("GitHub API error: " ++ toString st)))
    ∧ fetchRepositoryMetadata .reject = .error .network
    ∧ (∀ (st : Nat) (b : String), respOk st = false →
        fetchRepositoryMetadataExecute (.response st b) =
          .errorOut "Failed to fetch repository metadata")
    ∧ fetchRepositoryMetadataExecute .reject =
        .errorOut "Failed to fetch repository metadata" := by
  refine ⟨?_, ?_, ?_, ?_, rfl, ?_, rfl⟩
  · intro o
    simp only [fetchRepositoryReadme]
    split <;> rfl
  · intro q oS oC
    simp only [searchRepositoryContents]
    split <;> rfl
  · intro o
    simp only [fetchRepositoryStructure]
    split <;> rfl
  · intro st b h
    simp [fetchRepositoryMetadata, h]
  · intro st b h
    simp [fetchRepositoryMetadataExecute, h]

/-- C1 witness: the no-raise fetchers at a network failure, and the agent
metadata tool at a concrete 404. -/
theorem fetcher_failure_behavior_witness :
    isOkE (fetchRepositoryReadme .reject) = true
    ∧ fetchRepositoryMetadataExecute (.response 404 "") =
        .errorOut "Failed to fetch repository metadata" :=
  ⟨fetcher_failure_behavior.1 .reject,
    fetcher_failure_behavior.2.2.2.2.2.1 404 "" (by decide)⟩

/-- C1 counterexample: the fallback pipeline's `fetchRepositoryMetadata`
raises (its `catch` re-throws) on a concrete 403 response and on a network
failure, instead of returning an error-carrying result value. -/
theorem fetchRepositoryMetadata_raises :
    fetchRepositoryMetadata (.response 403 "") = .error (.message "GitHub API error: 403")
    ∧ fetchRepositoryMetadata .reject = .error .network :=
  ⟨rfl, rfl⟩

/-- C5 (amended): on a non-2xx search response the fallback pipeline's
`searchRepositoryContents` falls back to the contents listing and returns its
raw item list — without any explanatory note, which only the agent tool
variant attaches — returning `[]` when the fallback also fails (and on a
network failure of the search call itself). -/
theorem search_fallback_behavior :
    (∀ (q : String) (st : Nat) (b : SearchBody) (oC : FetchOutcome String),
      respOk st = false →
        searchRepositoryContents q (.response st b) oC = .ok (contentsFallbackResult oC))
    ∧ (∀ (q : String) (oC : FetchOutcome String),
        searchRepositoryContents q .reject oC = .ok "[]")
    ∧ (∀ (q : String) (st : Nat) (b : SearchBody) (st2 : Nat) (b2 : String),
        respOk st = false → respOk st2 = true →
          searchRepositoryContentsExecute q (.response st b) (.response st2 b2) =
            ⟨b2, some "Fallback to repository contents due to search API limitations",
              none⟩) := by
  refine ⟨?_, fun _ _ => rfl, ?_⟩
  · intro q st b oC h
    cases oC with
    | reject => simp [searchRepositoryContents, h, contentsFallbackResult]
    | response st2 b2 =>
      cases h2 : respOk st2 <;>
        simp [searchRepositoryContents, h, h2, contentsFallbackResult]
  · intro q st b st2 b2 h h2
    simp [searchRepositoryContentsExecute, h, h2]

/-- C5 witness: a concrete 403 search response with a succeeding contents
fallback. -/
theorem search_fallback_behavior_witness :
    searchRepositoryContents "q" (.response 403 ⟨none⟩) (.response 200 "[\"x\"]") =
      .ok "[\"x\"]" := by
  have h := search_fallback_behavior.1 "q" 403 ⟨none⟩ (.response 200 "[\"x\"]") (by decide)
  simpa [contentsFallbackResult] using h

/-- C5 counterexample: on search failure with a succeeding contents fallback,
the fallback pipeline returns exactly the raw contents listing, which carries
no note explaining the fallback. -/
theorem search_fallback_no_note :
    searchRepositoryContents "how to" (.response 403 ⟨none⟩) (.response 200 "[\"pkg\"]") =
      .ok "[\"pkg\"]"
    ∧ jsIncludes "[\"pkg\"]" "note" = false
    ∧ jsIncludes "[\"pkg\"]" "Fallback" = false :=
  ⟨rfl, by decide, by decide⟩

/-! ## String decomposition helpers -/

/-- Splitting a concatenation of mapped blocks at a member. -/
theorem concatAll_mem_split {α : Type} (f : α → String) :
    ∀ (rs : List α) (r : α), r ∈ rs →
      ∃ a b, concatAll (rs.map f) = a ++ f r ++ b := by
  intro rs r hmem
  induction rs with
  | nil => cases hmem
  | cons x xs ih =>
    rcases List.mem_cons.mp hmem with h | h
    · subst h
      refine ⟨"", concatAll (xs.map f), ?_⟩
      apply String.ext
      simp [concatAll, String.data_append]
    · obtain ⟨a, b, hab⟩ := ih h
      refine ⟨f x ++ a, b, ?_⟩
      apply String.ext
      simp [concatAll, hab, String.data_append, List.append_assoc]

/-- `substring(0, n)` is `take n` on the character list. -/
theorem jsSubstring_zero_take (s : String) (n : Nat) :
    jsSubstring s 0 (n : Int) = String.mk (s.data.take n) := by
  have e1 : (max 0 (min (0 : Int) (s.data.length : Int))).toNat = 0 := by omega
  have e2 : (max 0 (min (n : Int) (s.data.length : Int))).toNat = min n s.data.length := by
    omega
  simp only [jsSubstring, e1, e2]
  have e3 : min 0 (min n s.data.length) = 0 := by omega
  have e4 : max 0 (min n s.data.length) = min n s.data.length := by omega
  simp only [e3, e4, List.drop_zero, Nat.sub_zero]
  congr 1
  rcases Nat.le_total n s.data.length with hle | hle
  · rw [Nat.min_eq_left hle]
  · rw [Nat.min_eq_right hle, List.take_length, List.take_of_length_le hle]

/-- The per-result truncation, stated with `take`. -/
theorem truncateForPrompt_eq (c : String) :
    truncateForPrompt c =
      if 2000 < c.length then String.mk (c.data.take 2000) ++ "... (truncated)"
      else c := by
  unfold truncateForPrompt
  rw [show ((2000 : Int) = ((2000 : Nat) : Int)) from rfl, jsSubstring_zero_take]

/-- C2: each ToolResult's content is embedded in the synthesized prompt as
exactly its first 2000 characters followed by `"... (truncated)"` when longer
than 2000 characters, and unchanged otherwise. -/
theorem prompt_truncation :
    ∀ (query : String) (rs : List ToolResult) (r : ToolResult), r ∈ rs →
      ∃ a b emb,
        formatToolResultsForLLM query rs =
          a ++ ("--- " ++ r.name ++ " ---\n") ++ emb ++ "\n\n" ++ b
        ∧ emb = (if 2000 < r.content.length then
              String.mk (r.content.data.take 2000) ++ "... (truncated)"
            else r.content) := by
  intro query rs r hmem
  obtain ⟨a, b, hab⟩ := concatAll_mem_split toolResultBlock rs r hmem
  refine ⟨promptIntro query ++ a, b ++ promptOutro, truncateForPrompt r.content, ?_,
    truncateForPrompt_eq r.content⟩
  unfold formatToolResultsForLLM
  rw [hab]
  unfold toolResultBlock
  apply String.ext
  simp [String.data_append, List.append_assoc]

/-- C2 witness: a 2001-character content inside a singleton result list. -/
theorem prompt_truncation_witness :
    2000 < (String.mk (List.replicate 2001 'a')).length
    ∧ ∃ a b emb,
        formatToolResultsForLLM "q" [⟨"n", String.mk (List.replicate 2001 'a')⟩] =
          a ++ ("--- " ++ "n" ++ " ---\n") ++ emb ++ "\n\n" ++ b
        ∧ emb = (if 2000 < (String.mk (List.replicate 2001 'a')).length then
              String.mk ((String.mk (List.replicate 2001 'a')).data.take 2000) ++
                "... (truncated)"
            else String.mk (List.replicate 2001 'a')) :=
  ⟨by simp only [String.length_mk, List.length_replicate]; omega,
    prompt_truncation "q" _
      ⟨"n", String.mk (List.replicate 2001 'a')⟩ (List.mem_singleton.mpr rfl)⟩

/-- C3: whenever the orchestrator completes (the synthesizer is only reached
with its result list), the synthesized prompt contains the four section
markers in the fixed order metadata, readme, search, structure, because the
orchestrator collects the four fetcher results in that order and the
synthesizer emits them in list order. -/
theorem prompt_markers_in_order :
    ∀ (repo query : String) (env : GhEnv) (rs : List ToolResult),
      executeGitHubTools repo query env = .ok rs →
        ∃ a b c d e, formatToolResultsForLLM query rs =
          a ++ "--- fetch_repository_metadata ---" ++ b ++
          "--- fetch_repository_readme ---" ++ c ++
          "--- search_repository_contents ---" ++ d ++
          "--- fetch_repository_structure ---" ++ e := by
  intro repo query env rs h
  unfold executeGitHubTools at h
  cases hm : fetchRepositoryMetadata env.metadata with
  | error e => rw [hm] at h; simp at h
  | ok m =>
    cases hre : fetchRepositoryReadme env.readme with
    | error e => rw [hm, hre] at h; simp at h
    | ok rdm =>
      cases hs : searchRepositoryContents query env.search env.searchContents with
      | error e => rw [hm, hre, hs] at h; simp at h
      | ok srch =>
        cases hst : fetchRepositoryStructure env.repoContents with
        | error e => rw [hm, hre, hs, hst] at h; simp at h
        | ok strc =>
          rw [hm, hre, hs, hst] at h
          simp only [Except.ok.injEq] at h
          subst h
          refine ⟨promptIntro query, "\n" ++ truncateForPrompt m ++ "\n\n",
            "\n" ++ truncateForPrompt rdm ++ "\n\n",
            "\n" ++ truncateForPrompt srch ++ "\n\n",
            "\n" ++ truncateForPrompt strc ++ "\n\n" ++ promptOutro, ?_⟩
          apply String.ext
          have h0 : ("" : String).data = ([] : List Char) := rfl
          simp only [formatToolResultsForLLM, List.map, concatAll, toolResultBlock, h0,
            String.data_append, List.append_assoc, List.append_nil]
          simp only [List.cons_append, List.nil_append]

/-- C3 witness: a concrete run whose metadata fetch succeeds and whose other
three fetches fail (all three absorb their failure). -/
theorem prompt_markers_in_order_witness :
    ∃ a b c d e,
      formatToolResultsForLLM "how"
        [⟨"fetch_repository_metadata", "[]"⟩,
         ⟨"fetch_repository_readme", "Could not fetch README content due to an error"⟩,
         ⟨"search_repository_contents", "[]"⟩,
         ⟨"fetch_repository_structure", "[]"⟩] =
        a ++ "--- fetch_repository_metadata ---" ++ b ++
        "--- fetch_repository_readme ---" ++ c ++
        "--- search_repository_contents ---" ++ d ++
        "--- fetch_repository_structure ---" ++ e :=
  prompt_markers_in_order "eddycjy/go-gin-example" "how"
    ⟨.response 200 "[]", .reject, .reject, .reject, .reject⟩ _ rfl

/-- C8 (amended): for every prompt from which the leftmost-match extraction
yields repository name `octo/demo`, star count `42` and description
`a demo repo`, and for which no README section matches the question keywords,
the simulated-LLM response contains all three values verbatim. -/
theorem fallback_response_contains_extracted_values :
    ∀ prompt : String,
      promptRepoName prompt = "octo/demo" →
      promptStars prompt = "42" →
      promptDescription prompt = "a demo repo" →
      extractRelevantContent (promptQuery prompt) (promptReadmeSection prompt) = "" →
        jsIncludes (simulateLLMCall prompt) "octo/demo" = true
        ∧ jsIncludes (simulateLLMCall prompt) "42" = true
        ∧ jsIncludes (simulateLLMCall prompt) "a demo repo" = true := by
  intro p h1 h2 h3 h4
  have hsim : simulateLLMCall p = responseGeneric "octo/demo" "42" "a demo repo" := by
    simp [simulateLLMCall, h1, h2, h3, h4]
  rw [hsim]
  refine ⟨by decide, by decide, by decide⟩

/-- C8 witness: a concrete prompt carrying the three fields exactly once. -/
theorem fallback_response_contains_witness :
    jsIncludes (simulateLLMCall "\"full_name\": \"octo/demo\" \"stargazers_count\": 42 \"description\": \"a demo repo\"") "octo/demo" = true
    ∧ jsIncludes (simulateLLMCall "\"full_name\": \"octo/demo\" \"stargazers_count\": 42 \"description\": \"a demo repo\"") "42" = true
    ∧ jsIncludes (simulateLLMCall "\"full_name\": \"octo/demo\" \"stargazers_count\": 42 \"description\": \"a demo repo\"") "a demo repo" = true :=
  fallback_response_contains_extracted_values
    "\"full_name\": \"octo/demo\" \"stargazers_count\": 42 \"description\": \"a demo repo\""
    (by decide) (by decide) (by decide) (by decide)

/-- C8 counterexample: a prompt containing the three claimed substrings whose
`"full_name"` pattern first matches an earlier conflicting field, so the
fallback response does not contain `octo/demo` at all. -/
theorem fallback_response_counterexample :
    jsIncludes "\"full_name\": \"zzz\" \"full_name\": \"octo/demo\" \"stargazers_count\": 42 \"description\": \"a demo repo\"" "\"full_name\": \"octo/demo\"" = true
    ∧ jsIncludes "\"full_name\": \"zzz\" \"full_name\": \"octo/demo\" \"stargazers_count\": 42 \"description\": \"a demo repo\"" "\"stargazers_count\": 42" = true
    ∧ jsIncludes "\"full_name\": \"zzz\" \"full_name\": \"octo/demo\" \"stargazers_count\": 42 \"description\": \"a demo repo\"" "\"description\": \"a demo repo\"" = true
    ∧ extractRelevantContent
        (promptQuery "\"full_name\": \"zzz\" \"full_name\": \"octo/demo\" \"stargazers_count\": 42 \"description\": \"a demo repo\"")
        (promptReadmeSection "\"full_name\": \"zzz\" \"full_name\": \"octo/demo\" \"stargazers_count\": 42 \"description\": \"a demo repo\"") = ""
    ∧ jsIncludes
        (simulateLLMCall "\"full_name\": \"zzz\" \"full_name\": \"octo/demo\" \"stargazers_count\": 42 \"description\": \"a demo repo\"")
        "octo/demo" = false := by
  refine ⟨by decide, by decide, by decide, by decide, by decide⟩
